import Mathlib

/-!
Shallow embedding of `surfman/src/platform/generic/egl/context.rs`
(functionality common to backends using EGL contexts).

The native EGL library is an external collaborator accessed through a
thread-scoped function table.  We model the observable EGL state explicitly:
the configs each display offers, the thread's current binding
(display / draw surface / read surface / context), a script of outcomes for
the fallible `eglChooseConfig` primitive, the result the next
`eglCreateContext` call will produce, the last native error code, and a trace
of every native call issued.  Each Rust function becomes a Lean function that
threads this state; `assert!` failures and `unwrap` panics are modelled as
`Option.none` results.
-/

set_option autoImplicit false

namespace Surfman

/-- EGL integers (`EGLint`).  Handles (displays, contexts, surfaces) are
opaque native values; we model them as integers as well. -/
abbrev EGLint := Int

namespace egl

def RED_SIZE : EGLint := 0x3024
def GREEN_SIZE : EGLint := 0x3023
def BLUE_SIZE : EGLint := 0x3022
def ALPHA_SIZE : EGLint := 0x3021
def DEPTH_SIZE : EGLint := 0x3025
def STENCIL_SIZE : EGLint := 0x3026
def CONFIG_ID : EGLint := 0x3028
def NONE : EGLint := 0x3038
def CONTEXT_CLIENT_VERSION : EGLint := 0x3098
def DRAW : EGLint := 0x3059
def READ : EGLint := 0x305A
def EGL_TRUE : EGLint := 1
def EGL_FALSE : EGLint := 0
def NO_DISPLAY : EGLint := 0
def NO_CONTEXT : EGLint := 0
def NO_SURFACE : EGLint := 0

end egl

/-- `const RGB_CHANNEL_BIT_DEPTH: EGLint = 8;` -/
def RGB_CHANNEL_BIT_DEPTH : EGLint := 8

/-- A native `EGLConfig`: an opaque handle whose only observable behaviour is
answering `eglGetConfigAttrib` queries. -/
structure ConfigModel where
  attr : EGLint → EGLint

/-- One native EGL call, as recorded in the call trace. -/
inductive EGLCall where
  | makeCurrent (display draw read ctx : EGLint)
  | chooseConfig (display : EGLint) (attribs : List EGLint)
  | getConfigAttrib (display attr : EGLint)
  | getError
  | getCurrentDisplay
  | getCurrentSurface (which : EGLint)
  | getCurrentContext
  | createContext (display : EGLint) (config : ConfigModel) (share : EGLint)
      (attribs : List EGLint)
  | getProcAddress (name : List Nat)

/-- The observable state of the native EGL library on the calling thread.

`chooseScript` scripts the outcomes of successive `eglChooseConfig` calls:
`some code` makes the next call fail (returning `EGL_FALSE` and setting the
error to `code`); `none`, or an exhausted script, makes it succeed.
`createContextResult` is the handle the next `eglCreateContext` returns
(`egl.NO_CONTEXT` models creation failure).  A failed native rebind is
outside the model: `eglMakeCurrent` always succeeds. -/
structure EGLState where
  displays : EGLint → List ConfigModel
  currentDisplay : EGLint
  currentDrawSurface : EGLint
  currentReadSurface : EGLint
  currentContext : EGLint
  chooseScript : List (Option EGLint)
  createContextResult : EGLint
  procAddresses : List Nat → EGLint
  lastError : EGLint
  trace : List EGLCall

/-- Parse an EGL attribute list into (attribute, value) pairs, stopping at the
`EGL_NONE` terminator, as `eglChooseConfig` reads its argument. -/
def attribPairs : List EGLint → List (EGLint × EGLint)
  | a :: v :: rest => if a = egl.NONE then [] else (a, v) :: attribPairs rest
  | _ => []

/-- The size attributes, which `eglChooseConfig` matches with
at-least semantics (a config's value must be ≥ the requested value). -/
def isSizeAttr (a : EGLint) : Bool :=
  a = egl.RED_SIZE || a = egl.GREEN_SIZE || a = egl.BLUE_SIZE ||
  a = egl.ALPHA_SIZE || a = egl.DEPTH_SIZE || a = egl.STENCIL_SIZE

/-- Whether a config satisfies one (attribute, value) requirement:
at-least for size attributes, exact for everything else (in particular
`EGL_CONFIG_ID`). -/
def configMatchesPair (c : ConfigModel) (p : EGLint × EGLint) : Bool :=
  if isSizeAttr p.1 then decide (p.2 ≤ c.attr p.1) else decide (c.attr p.1 = p.2)

/-- The configs of a display matching an attribute list, in native
enumeration order (the display's backend-defined order, filtered). -/
def matchedConfigs (configs : List ConfigModel) (attribs : List EGLint) :
    List ConfigModel :=
  configs.filter (fun c => (attribPairs attribs).all (fun p => configMatchesPair c p))

/-- `eglChooseConfig`: returns a success flag and the matching configs.
The count query and the enumeration query are both calls to this primitive;
the scripted outcome list decides whether a given call fails. -/
def eglChooseConfig (s : EGLState) (display : EGLint) (attribs : List EGLint) :
    (EGLint × List ConfigModel) × EGLState :=
  let s1 := { s with trace := EGLCall.chooseConfig display attribs :: s.trace }
  match s.chooseScript with
  | some code :: rest =>
      ((egl.EGL_FALSE, []), { s1 with chooseScript := rest, lastError := code })
  | none :: rest =>
      ((egl.EGL_TRUE, matchedConfigs (s.displays display) attribs),
       { s1 with chooseScript := rest })
  | [] => ((egl.EGL_TRUE, matchedConfigs (s.displays display) attribs), s1)

/-- `eglGetError`. -/
def eglGetError (s : EGLState) : EGLint × EGLState :=
  (s.lastError, { s with trace := EGLCall.getError :: s.trace })

/-- `eglMakeCurrent`.  `eglGetCurrentDisplay` reports the display of the
current context, so binding `NO_CONTEXT` leaves the current display
`NO_DISPLAY`. -/
def eglMakeCurrent (s : EGLState) (display draw read ctx : EGLint) :
    EGLint × EGLState :=
  (egl.EGL_TRUE,
   { s with
     currentDisplay := if ctx = egl.NO_CONTEXT then egl.NO_DISPLAY else display
     currentDrawSurface := draw
     currentReadSurface := read
     currentContext := ctx
     trace := EGLCall.makeCurrent display draw read ctx :: s.trace })

/-- `eglCreateContext`: returns the scripted handle
(`egl.NO_CONTEXT` models failure). -/
def eglCreateContext (s : EGLState) (display : EGLint) (config : ConfigModel)
    (share : EGLint) (attribs : List EGLint) : EGLint × EGLState :=
  (s.createContextResult,
   { s with trace := EGLCall.createContext display config share attribs :: s.trace })

/-- `get_config_attr`: `eglGetConfigAttrib` on a previously validated config
is expected to always succeed (the Rust code asserts the result). -/
def get_config_attr (s : EGLState) (display : EGLint) (c : ConfigModel)
    (attr : EGLint) : EGLint × EGLState :=
  (c.attr attr, { s with trace := EGLCall.getConfigAttrib display attr :: s.trace })

/-- `GLVersion { major, minor }`. -/
structure GLVersion where
  major : Nat
  minor : Nat
deriving DecidableEq, Repr

/-- `ContextAttributeFlags` bitflags, one Bool per flag. -/
structure ContextAttributeFlags where
  ALPHA : Bool
  DEPTH : Bool
  STENCIL : Bool
  COMPATIBILITY_PROFILE : Bool
deriving DecidableEq, Repr

/-- `ContextAttributeFlags::empty()`. -/
def ContextAttributeFlags.empty : ContextAttributeFlags :=
  ⟨false, false, false, false⟩

/-- `ContextAttributes { flags, version }`. -/
structure ContextAttributes where
  flags : ContextAttributeFlags
  version : GLVersion
deriving DecidableEq, Repr

/-- `ContextDescriptor { egl_config_id, gl_version }`. -/
structure ContextDescriptor where
  egl_config_id : EGLint
  gl_version : GLVersion
deriving DecidableEq, Repr

/-- Modelled from the spec: raw native error codes are captured and wrapped
into a windowing-API-neutral classification (`ToWindowingApiError`, defined
in `platform/generic/egl/error.rs`, which is not among the provided sources).
The classification is an opaque wrapper around the native code. -/
structure WindowingApiError where
  code : EGLint
deriving DecidableEq, Repr

/-- Modelled from the spec: `to_windowing_api_error` wraps the raw code. -/
def toWindowingApiError (code : EGLint) : WindowingApiError := ⟨code⟩

/-- The `Error` variants this module produces. -/
inductive Error where
  | UnsupportedGLProfile
  | UnsupportedGLVersion
  | NoPixelFormatFound
  | PixelFormatSelectionFailed (err : WindowingApiError)
  | ContextCreationFailed (err : WindowingApiError)
  | MakeCurrentFailed (err : WindowingApiError)
deriving DecidableEq, Repr

/-- The `required_config_attributes` array built in `ContextDescriptor::new`:
red/green/blue sizes only. -/
def required_config_attributes : List EGLint :=
  [egl.RED_SIZE, RGB_CHANNEL_BIT_DEPTH,
   egl.GREEN_SIZE, RGB_CHANNEL_BIT_DEPTH,
   egl.BLUE_SIZE, RGB_CHANNEL_BIT_DEPTH]

/-- The full `requested_config_attributes` list built in
`ContextDescriptor::new`: required + alpha/depth/stencil sizes + backend
extras + `[EGL_NONE, 0, 0, 0]` terminator. -/
def requested_config_attributes (attributes : ContextAttributes)
    (extra_config_attributes : List EGLint) : List EGLint :=
  let alpha_size : EGLint := if attributes.flags.ALPHA then 8 else 0
  let depth_size : EGLint := if attributes.flags.DEPTH then 24 else 0
  let stencil_size : EGLint := if attributes.flags.STENCIL then 8 else 0
  required_config_attributes ++
    [egl.ALPHA_SIZE, alpha_size,
     egl.DEPTH_SIZE, depth_size,
     egl.STENCIL_SIZE, stencil_size] ++
    extra_config_attributes ++
    [egl.NONE, 0, 0, 0]

/-- `required_config_attributes.chunks(2)`: the slice has even length, so
this is exactly the (attribute, value) pairs. -/
def chunks2 : List EGLint → List (EGLint × EGLint)
  | a :: v :: rest => (a, v) :: chunks2 rest
  | _ => []

/-- The sanitization check run on one candidate config: every required pair
is re-queried with `get_config_attr` and must compare equal
(`chunks(2).all(..)`, short-circuiting). -/
def checkRequired (s : EGLState) (display : EGLint) (c : ConfigModel) :
    List (EGLint × EGLint) → Bool × EGLState
  | [] => (true, s)
  | p :: ps =>
      let (v, s1) := get_config_attr s display c p.1
      if v = p.2 then checkRequired s1 display c ps else (false, s1)

/-- `configs.into_iter().filter(..).next()`: walk the enumerated configs in
order and return the first one passing the sanitization check. -/
def sanitizeConfigs (s : EGLState) (display : EGLint) :
    List ConfigModel → Option ConfigModel × EGLState
  | [] => (none, s)
  | c :: rest =>
      let (pass, s1) := checkRequired s display c (chunks2 required_config_attributes)
      if pass then (some c, s1) else sanitizeConfigs s1 display rest

/-- `ContextDescriptor::new`: forward resolution of a capability request into
a descriptor. -/
def ContextDescriptor.new (egl_display : EGLint)
    (attributes : ContextAttributes) (extra_config_attributes : List EGLint)
    (s : EGLState) : Except Error ContextDescriptor × EGLState :=
  let flags := attributes.flags
  if flags.COMPATIBILITY_PROFILE then
    (Except.error Error.UnsupportedGLProfile, s)
  else if attributes.version.major > 3 ∨
      (attributes.version.major = 3 ∧ attributes.version.minor > 0) then
    (Except.error Error.UnsupportedGLVersion, s)
  else
    let requested := requested_config_attributes attributes extra_config_attributes
    -- See how many applicable configs there are.
    let ((result1, matched1), s1) := eglChooseConfig s egl_display requested
    if result1 = egl.EGL_FALSE then
      let (err, s2) := eglGetError s1
      (Except.error (Error.PixelFormatSelectionFailed (toWindowingApiError err)), s2)
    else
      let config_count := matched1.length
      if config_count = 0 then
        (Except.error Error.NoPixelFormatFound, s1)
      else
        -- Enumerate all those configs (buffer of size config_count).
        let ((result2, matched2), s2) := eglChooseConfig s1 egl_display requested
        if result2 = egl.EGL_FALSE then
          let (err, s3) := eglGetError s2
          (Except.error (Error.PixelFormatSelectionFailed (toWindowingApiError err)), s3)
        else
          let configs := matched2.take config_count
          -- Sanitize configs.
          let (found, s3) := sanitizeConfigs s2 egl_display configs
          match found with
          | none => (Except.error Error.NoPixelFormatFound, s3)
          | some egl_config =>
              -- Get the config ID and version.
              let (egl_config_id, s4) :=
                get_config_attr s3 egl_display egl_config egl.CONFIG_ID
              (Except.ok { egl_config_id := egl_config_id,
                           gl_version := attributes.version }, s4)

/-- `egl_config_from_id`: re-resolve a config id to a live config handle via
a single-result `eglChooseConfig` on `EGL_CONFIG_ID`.  The Rust code asserts
success and a positive count; assertion failure is modelled as `none`. -/
def egl_config_from_id (egl_display egl_config_id : EGLint) (s : EGLState) :
    Option ConfigModel × EGLState :=
  let config_attributes := [egl.CONFIG_ID, egl_config_id, egl.NONE, 0, 0, 0]
  let ((result, matched), s1) := eglChooseConfig s egl_display config_attributes
  if result = egl.EGL_FALSE then (none, s1)
  else
    match matched.take 1 with
    | [] => (none, s1)
    | c :: _ => (some c, s1)

/-- `ContextDescriptor::attributes`: reverse resolution of a descriptor into
a capability set.  `none` models the assertion failure inside
`egl_config_from_id`. -/
def ContextDescriptor.attributes (descriptor : ContextDescriptor)
    (egl_display : EGLint) (s : EGLState) :
    Option ContextAttributes × EGLState :=
  let (cfg, s1) := egl_config_from_id egl_display descriptor.egl_config_id s
  match cfg with
  | none => (none, s1)
  | some egl_config =>
      let (alpha_size, s2) := get_config_attr s1 egl_display egl_config egl.ALPHA_SIZE
      let (depth_size, s3) := get_config_attr s2 egl_display egl_config egl.DEPTH_SIZE
      let (stencil_size, s4) :=
        get_config_attr s3 egl_display egl_config egl.STENCIL_SIZE
      let attribute_flags : ContextAttributeFlags :=
        { ALPHA := alpha_size ≠ 0
          DEPTH := depth_size ≠ 0
          STENCIL := stencil_size ≠ 0
          COMPATIBILITY_PROFILE := false }
      (some { flags := attribute_flags, version := descriptor.gl_version }, s4)

/-- `CurrentContextGuard`: the captured thread-local binding. -/
structure CurrentContextGuard where
  egl_display : EGLint
  old_egl_draw_surface : EGLint
  old_egl_read_surface : EGLint
  old_egl_context : EGLint
deriving DecidableEq, Repr

/-- `CurrentContextGuard::new`: capture the current display, draw surface,
read surface and context. -/
def CurrentContextGuard.new (s : EGLState) : CurrentContextGuard × EGLState :=
  ({ egl_display := s.currentDisplay
     old_egl_draw_surface := s.currentDrawSurface
     old_egl_read_surface := s.currentReadSurface
     old_egl_context := s.currentContext },
   { s with
     trace := EGLCall.getCurrentContext :: EGLCall.getCurrentSurface egl.READ ::
              EGLCall.getCurrentSurface egl.DRAW :: EGLCall.getCurrentDisplay ::
              s.trace })

/-- `impl Drop for CurrentContextGuard`: restore the captured binding with a
single `eglMakeCurrent`, unless the captured display is `NO_DISPLAY`. -/
def CurrentContextGuard.drop (g : CurrentContextGuard) (s : EGLState) : EGLState :=
  if g.egl_display ≠ egl.NO_DISPLAY then
    (eglMakeCurrent s g.egl_display g.old_egl_draw_surface
      g.old_egl_read_surface g.old_egl_context).2
  else s

/-- A scope protected by a `CurrentContextGuard`, as Rust's drop semantics
run it: acquire the guard, run the body (which may return normally or with
an error), and drop the guard on the way out in either case. -/
def withCurrentContextGuard {α : Type} (body : EGLState → α × EGLState)
    (s : EGLState) : α × EGLState :=
  let (g, s1) := CurrentContextGuard.new s
  let (r, s2) := body s1
  (r, g.drop s2)

/-- `create_context`: build the context attribute list (requested major
version, terminator, defensive trailing zeroes) and create a context with no
share context.  The outer `none` models the assertion failure inside
`egl_config_from_id`. -/
def create_context (egl_display : EGLint) (descriptor : ContextDescriptor)
    (s : EGLState) : Option (Except Error EGLint × EGLState) :=
  let (cfg, s1) := egl_config_from_id egl_display descriptor.egl_config_id s
  match cfg with
  | none => none
  | some egl_config =>
      let egl_context_attributes :=
        [egl.CONTEXT_CLIENT_VERSION, (descriptor.gl_version.major : EGLint),
         egl.NONE, 0,
         0, 0]
      let (egl_context, s2) :=
        eglCreateContext s1 egl_display egl_config egl.NO_CONTEXT
          egl_context_attributes
      if egl_context = egl.NO_CONTEXT then
        let (err, s3) := eglGetError s2
        some (Except.error (Error.ContextCreationFailed (toWindowingApiError err)), s3)
      else
        some (Except.ok egl_context, s2)

/-- `CString::new(..)`: fails exactly when the byte string contains a NUL. -/
def cStringNew (bytes : List Nat) : Option (List Nat) :=
  if bytes.contains 0 then none else some bytes

/-- `get_proc_address`: `CString::new(symbol_name).unwrap()` then
`eglGetProcAddress`.  The `unwrap` panic is modelled as `none`; a null
result (`0`) from the native lookup is returned as a normal value. -/
def get_proc_address (symbol_name : List Nat) (s : EGLState) :
    Option (EGLint × EGLState) :=
  match cStringNew symbol_name with
  | none => none
  | some name =>
      some (s.procAddresses name,
            { s with trace := EGLCall.getProcAddress name :: s.trace })

/-! ### Pure characterizations of the resolver

The stateful functions above are transcriptions of the Rust code.  To reason
about them we characterize their results by pure functions over the display's
config list, and prove bridging lemmas (for runs in which the native
`eglChooseConfig` primitive does not fail, i.e. `chooseScript = []`). -/

/-- The sanitization predicate: the directly re-queried red, green and blue
sizes are each exactly 8. -/
def sanitizePass (c : ConfigModel) : Bool :=
  (chunks2 required_config_attributes).all (fun p => decide (c.attr p.1 = p.2))

theorem sanitizePass_eq (c : ConfigModel) :
    sanitizePass c = (decide (c.attr egl.RED_SIZE = 8) &&
      (decide (c.attr egl.GREEN_SIZE = 8) && decide (c.attr egl.BLUE_SIZE = 8))) := by
  simp [sanitizePass, chunks2, required_config_attributes, RGB_CHANNEL_BIT_DEPTH,
    List.all_cons]

/-- Pure version of `egl_config_from_id`: first config with the identifier. -/
def configFromId (configs : List ConfigModel) (id : EGLint) :
    Option ConfigModel :=
  configs.find? (fun c => decide (c.attr egl.CONFIG_ID = id))

/-- Pure version of `ContextDescriptor::new`. -/
def resolveDescriptor (configs : List ConfigModel)
    (attributes : ContextAttributes) (extra_config_attributes : List EGLint) :
    Except Error ContextDescriptor :=
  if attributes.flags.COMPATIBILITY_PROFILE then
    Except.error Error.UnsupportedGLProfile
  else if attributes.version.major > 3 ∨
      (attributes.version.major = 3 ∧ attributes.version.minor > 0) then
    Except.error Error.UnsupportedGLVersion
  else
    let matched :=
      matchedConfigs configs (requested_config_attributes attributes extra_config_attributes)
    if matched.length = 0 then Except.error Error.NoPixelFormatFound
    else
      match matched.find? sanitizePass with
      | none => Except.error Error.NoPixelFormatFound
      | some c =>
          Except.ok { egl_config_id := c.attr egl.CONFIG_ID,
                      gl_version := attributes.version }

/-- Pure version of `ContextDescriptor::attributes`. -/
def attributesPure (configs : List ConfigModel)
    (descriptor : ContextDescriptor) : Option ContextAttributes :=
  match configFromId configs descriptor.egl_config_id with
  | none => none
  | some c =>
      some { flags := { ALPHA := c.attr egl.ALPHA_SIZE ≠ 0
                        DEPTH := c.attr egl.DEPTH_SIZE ≠ 0
                        STENCIL := c.attr egl.STENCIL_SIZE ≠ 0
                        COMPATIBILITY_PROFILE := false }
             version := descriptor.gl_version }

theorem head?_filter_eq_find? {α : Type} (p : α → Bool) (l : List α) :
    (l.filter p).head? = l.find? p := by
  induction l with
  | nil => rfl
  | cons x xs ih =>
      by_cases h : p x
      · simp [List.filter_cons, List.find?_cons, h]
      · simp only [List.filter_cons, List.find?_cons, h]
        simp only [Bool.false_eq_true, ite_false, cond_false, ih]

theorem checkRequired_fst (display : EGLint) (c : ConfigModel) :
    ∀ (ps : List (EGLint × EGLint)) (s : EGLState),
      (checkRequired s display c ps).1 =
        ps.all (fun p => decide (c.attr p.1 = p.2)) := by
  intro ps
  induction ps with
  | nil => intro s; rfl
  | cons p ps ih =>
      intro s
      by_cases h : c.attr p.1 = p.2
      · simp [checkRequired, get_config_attr, h, ih, List.all_cons]
      · simp [checkRequired, get_config_attr, h, List.all_cons]

theorem checkRequired_snd (display : EGLint) (c : ConfigModel) :
    ∀ (ps : List (EGLint × EGLint)) (s : EGLState),
      ∃ t, (checkRequired s display c ps).2 = { s with trace := t ++ s.trace } := by
  intro ps
  induction ps with
  | nil => intro s; exact ⟨[], rfl⟩
  | cons p ps ih =>
      intro s
      by_cases h : c.attr p.1 = p.2
      · obtain ⟨t, ht⟩ :=
          ih { s with trace := EGLCall.getConfigAttrib display p.1 :: s.trace }
        refine ⟨t ++ [EGLCall.getConfigAttrib display p.1], ?_⟩
        simp [checkRequired, get_config_attr, h, ht]
      · exact ⟨[EGLCall.getConfigAttrib display p.1], by
          simp [checkRequired, get_config_attr, h]⟩

theorem sanitizeConfigs_fst (display : EGLint) :
    ∀ (l : List ConfigModel) (s : EGLState),
      (sanitizeConfigs s display l).1 = l.find? sanitizePass := by
  intro l
  induction l with
  | nil => intro s; rfl
  | cons c cs ih =>
      intro s
      by_cases h : sanitizePass c = true
      · simp only [sanitizeConfigs]
        rw [show (checkRequired s display c (chunks2 required_config_attributes)).1
              = sanitizePass c from checkRequired_fst display c _ s]
        simp [h, List.find?_cons]
      · simp only [sanitizeConfigs]
        rw [show (checkRequired s display c (chunks2 required_config_attributes)).1
              = sanitizePass c from checkRequired_fst display c _ s]
        simp [h, List.find?_cons, ih]

theorem sanitizeConfigs_snd (display : EGLint) :
    ∀ (l : List ConfigModel) (s : EGLState),
      ∃ t, (sanitizeConfigs s display l).2 = { s with trace := t ++ s.trace } := by
  intro l
  induction l with
  | nil => intro s; exact ⟨[], rfl⟩
  | cons c cs ih =>
      intro s
      obtain ⟨t1, ht1⟩ := checkRequired_snd display c (chunks2 required_config_attributes) s
      by_cases h : sanitizePass c = true
      · refine ⟨t1, ?_⟩
        simp only [sanitizeConfigs]
        rw [show (checkRequired s display c (chunks2 required_config_attributes)).1
              = sanitizePass c from checkRequired_fst display c _ s]
        simp [h, ht1]
      · simp only [sanitizeConfigs]
        rw [show (checkRequired s display c (chunks2 required_config_attributes)).1
              = sanitizePass c from checkRequired_fst display c _ s]
        rw [if_neg (by simp [h]), ht1]
        obtain ⟨t2, ht2⟩ := ih { s with trace := t1 ++ s.trace }
        refine ⟨t2 ++ t1, ?_⟩
        simp only [ht2]
        simp [List.append_assoc]

theorem eglChooseConfig_nil (s : EGLState) (display : EGLint)
    (attribs : List EGLint) (hs : s.chooseScript = []) :
    eglChooseConfig s display attribs =
      ((egl.EGL_TRUE, matchedConfigs (s.displays display) attribs),
       { s with trace := EGLCall.chooseConfig display attribs :: s.trace }) := by
  simp [eglChooseConfig, hs]

theorem new_fst (display : EGLint) (attributes : ContextAttributes)
    (extra : List EGLint) (s : EGLState) (hs : s.chooseScript = []) :
    (ContextDescriptor.new display attributes extra s).1 =
      resolveDescriptor (s.displays display) attributes extra := by
  by_cases hc : attributes.flags.COMPATIBILITY_PROFILE = true
  · simp [ContextDescriptor.new, resolveDescriptor, hc]
  · by_cases hv : attributes.version.major > 3 ∨
        (attributes.version.major = 3 ∧ attributes.version.minor > 0)
    · simp [ContextDescriptor.new, resolveDescriptor, hc, hv]
    · simp only [ContextDescriptor.new, resolveDescriptor, hc, hv, Bool.false_eq_true,
        if_false, ite_false]
      rw [eglChooseConfig_nil s display _ hs]
      simp only [egl.EGL_TRUE, egl.EGL_FALSE]
      norm_num
      by_cases hzero :
          (matchedConfigs (s.displays display)
            (requested_config_attributes attributes extra)).length = 0
      · simp [hzero]
      · simp only [hzero, ite_false, if_false]
        rw [eglChooseConfig_nil _ display _ (by simp [hs])]
        simp only [egl.EGL_TRUE, egl.EGL_FALSE]
        norm_num
        rw [sanitizeConfigs_fst]
        cases hfind : (matchedConfigs (s.displays display)
            (requested_config_attributes attributes extra)).find? sanitizePass with
        | none => simp
        | some c => simp [get_config_attr]

theorem new_snd (display : EGLint) (attributes : ContextAttributes)
    (extra : List EGLint) (s : EGLState) (hs : s.chooseScript = []) :
    ∃ t, (ContextDescriptor.new display attributes extra s).2 =
      { s with trace := t ++ s.trace } := by
  by_cases hc : attributes.flags.COMPATIBILITY_PROFILE = true
  · exact ⟨[], by simp [ContextDescriptor.new, hc]⟩
  · by_cases hv : attributes.version.major > 3 ∨
        (attributes.version.major = 3 ∧ attributes.version.minor > 0)
    · exact ⟨[], by simp [ContextDescriptor.new, hc, hv]⟩
    · simp only [ContextDescriptor.new, hc, hv, Bool.false_eq_true, if_false, ite_false]
      rw [eglChooseConfig_nil s display _ hs]
      simp only [egl.EGL_TRUE, egl.EGL_FALSE]
      norm_num
      by_cases hzero :
          (matchedConfigs (s.displays display)
            (requested_config_attributes attributes extra)).length = 0
      · refine ⟨[EGLCall.chooseConfig display
          (requested_config_attributes attributes extra)], ?_⟩
        simp [hzero]
      · simp only [hzero, ite_false, if_false]
        rw [eglChooseConfig_nil _ display _ (by simp [hs])]
        simp only [egl.EGL_TRUE, egl.EGL_FALSE]
        norm_num
        rw [sanitizeConfigs_fst]
        obtain ⟨t, ht⟩ := sanitizeConfigs_snd display
          (matchedConfigs (s.displays display)
            (requested_config_attributes attributes extra))
          { s with
            trace := EGLCall.chooseConfig display
                (requested_config_attributes attributes extra) ::
              EGLCall.chooseConfig display
                (requested_config_attributes attributes extra) :: s.trace }
        cases hfind : (matchedConfigs (s.displays display)
            (requested_config_attributes attributes extra)).find? sanitizePass with
        | none =>
            refine ⟨t ++ [EGLCall.chooseConfig display
                (requested_config_attributes attributes extra),
              EGLCall.chooseConfig display
                (requested_config_attributes attributes extra)], ?_⟩
            simp [ht]
        | some c =>
            refine ⟨EGLCall.getConfigAttrib display egl.CONFIG_ID :: t ++
              [EGLCall.chooseConfig display
                (requested_config_attributes attributes extra),
              EGLCall.chooseConfig display
                (requested_config_attributes attributes extra)], ?_⟩
            simp [get_config_attr, ht]

theorem egl_config_from_id_fst (display id : EGLint) (s : EGLState)
    (hs : s.chooseScript = []) :
    (egl_config_from_id display id s).1 = configFromId (s.displays display) id := by
  simp only [egl_config_from_id]
  rw [eglChooseConfig_nil s display _ hs]
  simp only [egl.EGL_TRUE, egl.EGL_FALSE]
  norm_num
  have hpairs : attribPairs [egl.CONFIG_ID, id, egl.NONE, 0, 0, 0] =
      [(egl.CONFIG_ID, id)] := by
    simp [attribPairs, egl.CONFIG_ID, egl.NONE]
  have hmatched : matchedConfigs (s.displays display)
      [egl.CONFIG_ID, id, egl.NONE, 0, 0, 0] =
      (s.displays display).filter (fun c => decide (c.attr egl.CONFIG_ID = id)) := by
    simp only [matchedConfigs, hpairs]
    refine List.filter_congr ?_
    intro c _
    simp [configMatchesPair, isSizeAttr, egl.CONFIG_ID, egl.RED_SIZE, egl.GREEN_SIZE,
      egl.BLUE_SIZE, egl.ALPHA_SIZE, egl.DEPTH_SIZE, egl.STENCIL_SIZE]
  rw [hmatched, configFromId, ← head?_filter_eq_find?]
  cases ((s.displays display).filter
      (fun c => decide (c.attr egl.CONFIG_ID = id))) with
  | nil => rfl
  | cons c cs => rfl

theorem egl_config_from_id_snd (display id : EGLint) (s : EGLState)
    (hs : s.chooseScript = []) :
    (egl_config_from_id display id s).2 =
      { s with trace :=
          (EGLCall.chooseConfig display
            [egl.CONFIG_ID, id, egl.NONE, 0, 0, 0]) :: s.trace } := by
  simp only [egl_config_from_id]
  rw [eglChooseConfig_nil s display _ hs]
  simp only [egl.EGL_TRUE, egl.EGL_FALSE]
  norm_num
  cases (matchedConfigs (s.displays display)
      [egl.CONFIG_ID, id, egl.NONE, 0, 0, 0]).take 1 with
  | nil => rfl
  | cons c cs => rfl

theorem attributes_fst (descriptor : ContextDescriptor) (display : EGLint)
    (s : EGLState) (hs : s.chooseScript = []) :
    (descriptor.attributes display s).1 =
      attributesPure (s.displays display) descriptor := by
  simp only [ContextDescriptor.attributes, attributesPure]
  rw [show egl_config_from_id display descriptor.egl_config_id s =
      ((egl_config_from_id display descriptor.egl_config_id s).1,
       (egl_config_from_id display descriptor.egl_config_id s).2) from rfl]
  rw [egl_config_from_id_fst display _ s hs]
  cases configFromId (s.displays display) descriptor.egl_config_id with
  | none => rfl
  | some c => simp [get_config_attr]

theorem new_trace (display : EGLint) (attributes : ContextAttributes)
    (extra : List EGLint) (s : EGLState) (hs : s.chooseScript = [])
    (hc : attributes.flags.COMPATIBILITY_PROFILE = false)
    (hv : ¬(attributes.version.major > 3 ∨
      (attributes.version.major = 3 ∧ attributes.version.minor > 0))) :
    ∃ t, (ContextDescriptor.new display attributes extra s).2.trace =
      t ++ EGLCall.chooseConfig display
        (requested_config_attributes attributes extra) :: s.trace := by
  simp only [ContextDescriptor.new, hc, hv, Bool.false_eq_true, if_false, ite_false]
  rw [eglChooseConfig_nil s display _ hs]
  simp only [egl.EGL_TRUE, egl.EGL_FALSE]
  norm_num
  by_cases hzero :
      (matchedConfigs (s.displays display)
        (requested_config_attributes attributes extra)).length = 0
  · exact ⟨[], by simp [hzero]⟩
  · simp only [hzero, ite_false, if_false]
    rw [eglChooseConfig_nil _ display _ (by simp [hs])]
    simp only [egl.EGL_TRUE, egl.EGL_FALSE]
    norm_num
    rw [sanitizeConfigs_fst]
    obtain ⟨t, ht⟩ := sanitizeConfigs_snd display
      (matchedConfigs (s.displays display)
        (requested_config_attributes attributes extra))
      { s with
        trace := EGLCall.chooseConfig display
            (requested_config_attributes attributes extra) ::
          EGLCall.chooseConfig display
            (requested_config_attributes attributes extra) :: s.trace }
    cases hfind : (matchedConfigs (s.displays display)
        (requested_config_attributes attributes extra)).find? sanitizePass with
    | none =>
        refine ⟨t ++ [EGLCall.chooseConfig display
            (requested_config_attributes attributes extra)], ?_⟩
        simp [ht]
    | some c =>
        refine ⟨EGLCall.getConfigAttrib display egl.CONFIG_ID :: t ++
          [EGLCall.chooseConfig display
            (requested_config_attributes attributes extra)], ?_⟩
        simp [get_config_attr, ht]

/-! ### Concrete states used by witnesses and counterexamples -/

/-- A thread state with nothing bound and an empty display. -/
def emptyState : EGLState :=
  { displays := fun _ => []
    currentDisplay := egl.NO_DISPLAY
    currentDrawSurface := egl.NO_SURFACE
    currentReadSurface := egl.NO_SURFACE
    currentContext := egl.NO_CONTEXT
    chooseScript := []
    createContextResult := egl.NO_CONTEXT
    procAddresses := fun _ => 0
    lastError := 0
    trace := [] }

/-- A state whose thread has context 10 with surfaces 8/9 current on
display 7. -/
def boundState : EGLState :=
  { emptyState with
    currentDisplay := 7
    currentDrawSurface := 8
    currentReadSurface := 9
    currentContext := 10 }

/-- An 8/8/8/8 RGBA config with 24-bit depth and 8-bit stencil, id 3. -/
def cfgRGBA : ConfigModel :=
  ⟨fun a =>
    if a = egl.RED_SIZE then 8 else if a = egl.GREEN_SIZE then 8 else
    if a = egl.BLUE_SIZE then 8 else if a = egl.ALPHA_SIZE then 8 else
    if a = egl.DEPTH_SIZE then 24 else if a = egl.STENCIL_SIZE then 8 else
    if a = egl.CONFIG_ID then 3 else 0⟩

/-- An 8/8/8 RGB config with no alpha/depth/stencil, id 4. -/
def cfgRGB : ConfigModel :=
  ⟨fun a =>
    if a = egl.RED_SIZE then 8 else if a = egl.GREEN_SIZE then 8 else
    if a = egl.BLUE_SIZE then 8 else
    if a = egl.CONFIG_ID then 4 else 0⟩

/-- An 8/8/8 RGB config with a 16-bit depth buffer, id 7. -/
def cfgDepth16 : ConfigModel :=
  ⟨fun a =>
    if a = egl.RED_SIZE then 8 else if a = egl.GREEN_SIZE then 8 else
    if a = egl.BLUE_SIZE then 8 else if a = egl.DEPTH_SIZE then 16 else
    if a = egl.CONFIG_ID then 7 else 0⟩

/-- A state whose display 1 offers the RGBA and RGB configs. -/
def twoConfigState : EGLState :=
  { emptyState with displays := fun d => if d = 1 then [cfgRGBA, cfgRGB] else [] }

/-- A state whose display 1 offers only the RGB config with 16-bit depth. -/
def depth16State : EGLState :=
  { emptyState with displays := fun d => if d = 1 then [cfgDepth16] else [] }

/-- The all-clear capability request: no flags, OpenGL ES 2.0. -/
def attrsPlain : ContextAttributes :=
  { flags := ContextAttributeFlags.empty, version := { major := 2, minor := 0 } }

/-! ### Claim theorems -/

/-- C4: a request with the compatibility-profile flag fails with
`UnsupportedGLProfile` leaving the native state untouched (no native call);
otherwise a request with GL version major > 3, or major = 3 and minor > 0,
fails with `UnsupportedGLVersion`, again without any native call. -/
theorem policy_rejection_before_native_calls (display : EGLint)
    (attributes : ContextAttributes) (extra : List EGLint) (s : EGLState) :
    (attributes.flags.COMPATIBILITY_PROFILE = true →
      ContextDescriptor.new display attributes extra s =
        (Except.error Error.UnsupportedGLProfile, s)) ∧
    (attributes.flags.COMPATIBILITY_PROFILE = false →
      (attributes.version.major > 3 ∨
        (attributes.version.major = 3 ∧ attributes.version.minor > 0)) →
      ContextDescriptor.new display attributes extra s =
        (Except.error Error.UnsupportedGLVersion, s)) := by
  constructor
  · intro h
    simp [ContextDescriptor.new, h]
  · intro h hv
    simp [ContextDescriptor.new, h, hv]

theorem policy_rejection_before_native_calls_witness :
    (ContextDescriptor.new 1
        { flags := ⟨false, false, false, true⟩, version := ⟨3, 0⟩ } [] emptyState =
      (Except.error Error.UnsupportedGLProfile, emptyState)) ∧
    (ContextDescriptor.new 1
        { flags := ⟨false, false, false, false⟩, version := ⟨3, 1⟩ } [] emptyState =
      (Except.error Error.UnsupportedGLVersion, emptyState)) :=
  ⟨(policy_rejection_before_native_calls 1
      { flags := ⟨false, false, false, true⟩, version := ⟨3, 0⟩ } [] emptyState).1 rfl,
   (policy_rejection_before_native_calls 1
      { flags := ⟨false, false, false, false⟩, version := ⟨3, 1⟩ } [] emptyState).2 rfl
      (Or.inr ⟨rfl, by norm_num⟩)⟩

/-- C5: the component sizes are alpha = 8 iff the ALPHA flag is set (else 0),
depth = 24 iff DEPTH (else 0), stencil = 8 iff STENCIL (else 0), and
red/green/blue are unconditionally 8; the required list holds only the
red/green/blue sizes; the extended request list is required +
alpha/depth/stencil + backend extras + sentinel terminator, and it is the
list the selection query is issued with. -/
theorem config_attribute_lists_structure (attributes : ContextAttributes)
    (extra : List EGLint) :
    required_config_attributes =
      [egl.RED_SIZE, 8, egl.GREEN_SIZE, 8, egl.BLUE_SIZE, 8] ∧
    requested_config_attributes attributes extra =
      required_config_attributes ++
        [egl.ALPHA_SIZE, if attributes.flags.ALPHA then 8 else 0,
         egl.DEPTH_SIZE, if attributes.flags.DEPTH then 24 else 0,
         egl.STENCIL_SIZE, if attributes.flags.STENCIL then 8 else 0] ++
        extra ++ [egl.NONE, 0, 0, 0] ∧
    (∀ (display : EGLint) (s : EGLState), s.chooseScript = [] →
      attributes.flags.COMPATIBILITY_PROFILE = false →
      ¬(attributes.version.major > 3 ∨
        (attributes.version.major = 3 ∧ attributes.version.minor > 0)) →
      ∃ t, (ContextDescriptor.new display attributes extra s).2.trace =
        t ++ EGLCall.chooseConfig display
          (requested_config_attributes attributes extra) :: s.trace) := by
  refine ⟨rfl, rfl, ?_⟩
  intro display s hs hc hv
  exact new_trace display attributes extra s hs hc hv

theorem config_attribute_lists_structure_witness :
    requested_config_attributes
        { flags := ⟨true, true, false, false⟩, version := ⟨2, 0⟩ } [99, 1] =
      [egl.RED_SIZE, 8, egl.GREEN_SIZE, 8, egl.BLUE_SIZE, 8] ++
        [egl.ALPHA_SIZE, 8, egl.DEPTH_SIZE, 24, egl.STENCIL_SIZE, 0] ++
        [99, 1] ++ [egl.NONE, 0, 0, 0] ∧
    (∃ t, (ContextDescriptor.new 1 attrsPlain [] twoConfigState).2.trace =
      t ++ EGLCall.chooseConfig 1
        (requested_config_attributes attrsPlain []) :: twoConfigState.trace) := by
  constructor
  · have h := (config_attribute_lists_structure
      { flags := ⟨true, true, false, false⟩, version := ⟨2, 0⟩ } [99, 1]).2.1
    simpa using h
  · exact (config_attribute_lists_structure attrsPlain []).2.2 1 twoConfigState rfl rfl
      (by norm_num [attrsPlain])

/-- C10: for a symbol name containing a NUL byte, `get_proc_address` panics
(modelled as `none`) rather than returning the null-equivalent result; for a
NUL-free name it returns the native lookup result (which is the null value
`0` when the entry point is absent). -/
theorem get_proc_address_nul_panics (symbol_name : List Nat) (s : EGLState) :
    (symbol_name.contains 0 = true → get_proc_address symbol_name s = none) ∧
    (symbol_name.contains 0 = false →
      get_proc_address symbol_name s =
        some (s.procAddresses symbol_name,
          { s with trace := EGLCall.getProcAddress symbol_name :: s.trace })) := by
  constructor
  · intro h
    have h0 : 0 ∈ symbol_name := by simpa using h
    simp [get_proc_address, cStringNew, h0]
  · intro h
    have h0 : ¬0 ∈ symbol_name := by simpa using h
    simp [get_proc_address, cStringNew, h0]

theorem get_proc_address_nul_panics_witness :
    get_proc_address [103, 0, 108] emptyState = none ∧
    get_proc_address [103, 108] emptyState =
      some (0, { emptyState with
        trace := [EGLCall.getProcAddress [103, 108]] }) := by
  constructor
  · exact (get_proc_address_nul_panics [103, 0, 108] emptyState).1 (by decide)
  · exact (get_proc_address_nul_panics [103, 108] emptyState).2 (by decide)

/-- C3: for every body run inside a guarded scope — whatever value the body
returns, normal or error — the guard's release runs exactly once on exit; it
issues exactly one `eglMakeCurrent` restoring the captured
(display, draw surface, read surface, context) state when the captured
display is not the `NO_DISPLAY` sentinel, and is skipped entirely (no call,
state untouched) when it is. -/
theorem guard_release_on_every_exit_path {α : Type}
    (body : EGLState → α × EGLState) (s : EGLState) :
    (withCurrentContextGuard body s).1 = (body (CurrentContextGuard.new s).2).1 ∧
    (withCurrentContextGuard body s).2 =
      ((CurrentContextGuard.new s).1).drop (body (CurrentContextGuard.new s).2).2 ∧
    (((CurrentContextGuard.new s).1).egl_display ≠ egl.NO_DISPLAY →
      (withCurrentContextGuard body s).2 =
        { (body (CurrentContextGuard.new s).2).2 with
          currentDisplay :=
            if ((CurrentContextGuard.new s).1).old_egl_context = egl.NO_CONTEXT
            then egl.NO_DISPLAY else ((CurrentContextGuard.new s).1).egl_display
          currentDrawSurface := ((CurrentContextGuard.new s).1).old_egl_draw_surface
          currentReadSurface := ((CurrentContextGuard.new s).1).old_egl_read_surface
          currentContext := ((CurrentContextGuard.new s).1).old_egl_context
          trace := EGLCall.makeCurrent ((CurrentContextGuard.new s).1).egl_display
              ((CurrentContextGuard.new s).1).old_egl_draw_surface
              ((CurrentContextGuard.new s).1).old_egl_read_surface
              ((CurrentContextGuard.new s).1).old_egl_context ::
            (body (CurrentContextGuard.new s).2).2.trace }) ∧
    (((CurrentContextGuard.new s).1).egl_display = egl.NO_DISPLAY →
      (withCurrentContextGuard body s).2 = (body (CurrentContextGuard.new s).2).2) := by
  refine ⟨rfl, rfl, ?_, ?_⟩
  · intro h
    show ((CurrentContextGuard.new s).1).drop (body (CurrentContextGuard.new s).2).2 = _
    simp [CurrentContextGuard.drop, h, eglMakeCurrent]
  · intro h
    show ((CurrentContextGuard.new s).1).drop (body (CurrentContextGuard.new s).2).2 = _
    simp [CurrentContextGuard.drop, h]

theorem guard_release_on_every_exit_path_witness :
    (withCurrentContextGuard (fun s => ((), (eglMakeCurrent s 1 2 3 4).2))
        boundState).2 =
      { (eglMakeCurrent (CurrentContextGuard.new boundState).2 1 2 3 4).2 with
        currentDisplay := 7
        currentDrawSurface := 8
        currentReadSurface := 9
        currentContext := 10
        trace := EGLCall.makeCurrent 7 8 9 10 ::
          (eglMakeCurrent (CurrentContextGuard.new boundState).2 1 2 3 4).2.trace } ∧
    (withCurrentContextGuard (fun s => ((), (eglMakeCurrent s 1 2 3 4).2))
        emptyState).2 =
      (eglMakeCurrent (CurrentContextGuard.new emptyState).2 1 2 3 4).2 := by
  constructor
  · have h := (guard_release_on_every_exit_path
      (fun s => ((), (eglMakeCurrent s 1 2 3 4).2)) boundState).2.2.1
      (by norm_num [CurrentContextGuard.new, boundState, emptyState, egl.NO_DISPLAY])
    rw [h]
    rfl
  · exact (guard_release_on_every_exit_path
      (fun s => ((), (eglMakeCurrent s 1 2 3 4).2)) emptyState).2.2.2 rfl

/-- C2 (counterexample to the claim as stated): starting from a thread with
nothing bound, capturing a guard, rebinding to display 7 / surfaces 8, 9 /
context 5, and releasing the guard does NOT leave nothing bound — the
context is still 5 after release, because the restore is skipped when the
captured display is the sentinel. -/
theorem guard_restore_counterexample :
    emptyState.currentContext = egl.NO_CONTEXT ∧
    emptyState.currentDisplay = egl.NO_DISPLAY ∧
    (((CurrentContextGuard.new emptyState).1).drop
        (eglMakeCurrent (CurrentContextGuard.new emptyState).2 7 8 9 5).2).currentContext
      = 5 ∧
    (5 : EGLint) ≠ egl.NO_CONTEXT := by
  refine ⟨rfl, rfl, rfl, by norm_num [egl.NO_CONTEXT]⟩

/-- C2 (amended): if something was bound at acquisition (the thread's current
display is not the sentinel, and the thread state is well formed in that the
current context is `NO_CONTEXT` exactly when the current display is
`NO_DISPLAY`), then capturing a guard, rebinding, and releasing restores
exactly the captured (context, read surface, draw surface) triple — and the
current display; if nothing was bound at acquisition, the release performs
no restore, leaving the rebound state in place. -/
theorem guard_restores_captured_triple (s : EGLState)
    (hwf : s.currentContext = egl.NO_CONTEXT ↔ s.currentDisplay = egl.NO_DISPLAY)
    (d dr rd c : EGLint) :
    (s.currentDisplay ≠ egl.NO_DISPLAY →
      (((CurrentContextGuard.new s).1).drop
          (eglMakeCurrent (CurrentContextGuard.new s).2 d dr rd c).2).currentContext
        = s.currentContext ∧
      (((CurrentContextGuard.new s).1).drop
          (eglMakeCurrent (CurrentContextGuard.new s).2 d dr rd c).2).currentReadSurface
        = s.currentReadSurface ∧
      (((CurrentContextGuard.new s).1).drop
          (eglMakeCurrent (CurrentContextGuard.new s).2 d dr rd c).2).currentDrawSurface
        = s.currentDrawSurface ∧
      (((CurrentContextGuard.new s).1).drop
          (eglMakeCurrent (CurrentContextGuard.new s).2 d dr rd c).2).currentDisplay
        = s.currentDisplay) ∧
    (s.currentDisplay = egl.NO_DISPLAY →
      ((CurrentContextGuard.new s).1).drop
          (eglMakeCurrent (CurrentContextGuard.new s).2 d dr rd c).2
        = (eglMakeCurrent (CurrentContextGuard.new s).2 d dr rd c).2) := by
  constructor
  · intro h
    have hctx : ¬s.currentContext = egl.NO_CONTEXT := fun hc0 => h (hwf.mp hc0)
    simp [CurrentContextGuard.new, CurrentContextGuard.drop, eglMakeCurrent, h, hctx]
  · intro h
    simp [CurrentContextGuard.new, CurrentContextGuard.drop, h]

theorem guard_restores_captured_triple_witness :
    ((((CurrentContextGuard.new boundState).1).drop
        (eglMakeCurrent (CurrentContextGuard.new boundState).2 1 2 3 4).2).currentContext
      = 10 ∧
     (((CurrentContextGuard.new boundState).1).drop
        (eglMakeCurrent (CurrentContextGuard.new boundState).2 1 2 3 4).2).currentReadSurface
      = 9 ∧
     (((CurrentContextGuard.new boundState).1).drop
        (eglMakeCurrent (CurrentContextGuard.new boundState).2 1 2 3 4).2).currentDrawSurface
      = 8 ∧
     (((CurrentContextGuard.new boundState).1).drop
        (eglMakeCurrent (CurrentContextGuard.new boundState).2 1 2 3 4).2).currentDisplay
      = 7) := by
  have h := (guard_restores_captured_triple boundState
    (by norm_num [boundState, emptyState, egl.NO_CONTEXT, egl.NO_DISPLAY])
    1 2 3 4).1 (by norm_num [boundState, emptyState, egl.NO_DISPLAY])
  simpa [boundState, emptyState] using h

/-- A state whose display 1 offers only the full RGBA config. -/
def rgbaState : EGLState :=
  { emptyState with displays := fun d => if d = 1 then [cfgRGBA] else [] }

/-- C8: `ContextDescriptor::attributes` resolves the descriptor's config,
reads the config's actual alpha/depth/stencil sizes, sets the ALPHA, DEPTH
and STENCIL flags exactly when the corresponding queried size is nonzero,
and copies the GL version verbatim from the descriptor; the produced call
trace consists of the config lookup and the three size queries only — no
version query. -/
theorem attributes_from_descriptor (descriptor : ContextDescriptor)
    (display : EGLint) (s : EGLState) (hs : s.chooseScript = [])
    (c : ConfigModel)
    (hc : configFromId (s.displays display) descriptor.egl_config_id = some c) :
    descriptor.attributes display s =
      (some { flags := { ALPHA := c.attr egl.ALPHA_SIZE ≠ 0
                         DEPTH := c.attr egl.DEPTH_SIZE ≠ 0
                         STENCIL := c.attr egl.STENCIL_SIZE ≠ 0
                         COMPATIBILITY_PROFILE := false }
              version := descriptor.gl_version },
       { s with trace :=
           EGLCall.getConfigAttrib display egl.STENCIL_SIZE ::
           EGLCall.getConfigAttrib display egl.DEPTH_SIZE ::
           EGLCall.getConfigAttrib display egl.ALPHA_SIZE ::
           (EGLCall.chooseConfig display
             [egl.CONFIG_ID, descriptor.egl_config_id, egl.NONE, 0, 0, 0]) ::
           s.trace }) := by
  simp only [ContextDescriptor.attributes]
  rw [show egl_config_from_id display descriptor.egl_config_id s =
      ((egl_config_from_id display descriptor.egl_config_id s).1,
       (egl_config_from_id display descriptor.egl_config_id s).2) from rfl]
  rw [egl_config_from_id_fst display _ s hs, egl_config_from_id_snd display _ s hs,
    hc]
  simp [get_config_attr]

theorem attributes_from_descriptor_witness :
    ContextDescriptor.attributes ⟨3, ⟨2, 0⟩⟩ 1 rgbaState =
      (some { flags := ⟨true, true, true, false⟩, version := ⟨2, 0⟩ },
       { rgbaState with trace :=
           EGLCall.getConfigAttrib 1 egl.STENCIL_SIZE ::
           EGLCall.getConfigAttrib 1 egl.DEPTH_SIZE ::
           EGLCall.getConfigAttrib 1 egl.ALPHA_SIZE ::
           (EGLCall.chooseConfig 1 [egl.CONFIG_ID, 3, egl.NONE, 0, 0, 0]) ::
           rgbaState.trace }) := by
  have h := attributes_from_descriptor ⟨3, ⟨2, 0⟩⟩ 1 rgbaState rfl cfgRGBA rfl
  rw [h]
  rfl

/-- C6: with the policy checks passed, a native failure of the counting
query yields `PixelFormatSelectionFailed` carrying the native error code; a
native failure of the enumeration query (the counting query having
succeeded with a nonzero count) yields the same; a successful counting
query reporting zero matching configs yields `NoPixelFormatFound`. -/
theorem selection_failure_classification (display : EGLint)
    (attributes : ContextAttributes) (extra : List EGLint) (s : EGLState)
    (hc : attributes.flags.COMPATIBILITY_PROFILE = false)
    (hv : ¬(attributes.version.major > 3 ∨
      (attributes.version.major = 3 ∧ attributes.version.minor > 0))) :
    (∀ code rest, s.chooseScript = some code :: rest →
      (ContextDescriptor.new display attributes extra s).1 =
        Except.error (Error.PixelFormatSelectionFailed (toWindowingApiError code))) ∧
    (∀ code rest, s.chooseScript = none :: some code :: rest →
      matchedConfigs (s.displays display)
        (requested_config_attributes attributes extra) ≠ [] →
      (ContextDescriptor.new display attributes extra s).1 =
        Except.error (Error.PixelFormatSelectionFailed (toWindowingApiError code))) ∧
    (s.chooseScript = [] →
      matchedConfigs (s.displays display)
        (requested_config_attributes attributes extra) = [] →
      (ContextDescriptor.new display attributes extra s).1 =
        Except.error Error.NoPixelFormatFound) ∧
    (∀ rest, s.chooseScript = none :: rest →
      matchedConfigs (s.displays display)
        (requested_config_attributes attributes extra) = [] →
      (ContextDescriptor.new display attributes extra s).1 =
        Except.error Error.NoPixelFormatFound) := by
  refine ⟨?_, ?_, ?_, ?_⟩
  · intro code rest hscript
    simp only [ContextDescriptor.new, hc, hv, Bool.false_eq_true, if_false, ite_false]
    simp [eglChooseConfig, hscript, eglGetError]
  · intro code rest hscript hne
    simp only [ContextDescriptor.new, hc, hv, Bool.false_eq_true, if_false, ite_false]
    simp [eglChooseConfig, hscript, eglGetError, egl.EGL_TRUE, egl.EGL_FALSE,
      List.length_eq_zero, hne]
  · intro hscript hempty
    simp only [ContextDescriptor.new, hc, hv, Bool.false_eq_true, if_false, ite_false]
    rw [eglChooseConfig_nil s display _ hscript]
    simp [egl.EGL_TRUE, egl.EGL_FALSE, hempty]
  · intro rest hscript hempty
    simp only [ContextDescriptor.new, hc, hv, Bool.false_eq_true, if_false, ite_false]
    simp [eglChooseConfig, hscript, egl.EGL_TRUE, egl.EGL_FALSE, hempty]

theorem selection_failure_classification_witness :
    ((ContextDescriptor.new 1 attrsPlain []
        { twoConfigState with chooseScript := [some 12] }).1 =
      Except.error (Error.PixelFormatSelectionFailed ⟨12⟩)) ∧
    ((ContextDescriptor.new 1 attrsPlain []
        { twoConfigState with chooseScript := [none, some 12] }).1 =
      Except.error (Error.PixelFormatSelectionFailed ⟨12⟩)) ∧
    ((ContextDescriptor.new 1 attrsPlain [] emptyState).1 =
      Except.error Error.NoPixelFormatFound) := by
  refine ⟨?_, ?_, ?_⟩
  · exact (selection_failure_classification 1 attrsPlain []
      { twoConfigState with chooseScript := [some 12] } rfl
      (by norm_num [attrsPlain])).1 12 [] rfl
  · refine (selection_failure_classification 1 attrsPlain []
      { twoConfigState with chooseScript := [none, some 12] } rfl
      (by norm_num [attrsPlain])).2.1 12 [] rfl ?_
    rw [show matchedConfigs
        (({ twoConfigState with chooseScript := [none, some 12] } : EGLState).displays 1)
        (requested_config_attributes attrsPlain []) = [cfgRGBA, cfgRGB] from rfl]
    exact List.cons_ne_nil _ _
  · exact (selection_failure_classification 1 attrsPlain [] emptyState rfl
      (by norm_num [attrsPlain])).2.2.1 rfl rfl

/-- C9: `create_context` resolves the descriptor's config, issues a native
creation call with no share context and an attribute list holding the
requested major version, a terminator, and trailing zero padding; it fails
with `ContextCreationFailed` carrying the native error code exactly when the
native call returns the no-context sentinel, and returns the created handle
otherwise. -/
theorem create_context_behavior (display : EGLint)
    (descriptor : ContextDescriptor) (s : EGLState) (hs : s.chooseScript = [])
    (c : ConfigModel)
    (hc : configFromId (s.displays display) descriptor.egl_config_id = some c) :
    ∃ s2, create_context display descriptor s =
        some ((if s.createContextResult = egl.NO_CONTEXT
               then Except.error
                 (Error.ContextCreationFailed (toWindowingApiError s.lastError))
               else Except.ok s.createContextResult), s2) ∧
      EGLCall.createContext display c egl.NO_CONTEXT
        [egl.CONTEXT_CLIENT_VERSION, (descriptor.gl_version.major : EGLint),
         egl.NONE, 0, 0, 0] ∈ s2.trace := by
  simp only [create_context]
  rw [show egl_config_from_id display descriptor.egl_config_id s =
      ((egl_config_from_id display descriptor.egl_config_id s).1,
       (egl_config_from_id display descriptor.egl_config_id s).2) from rfl]
  rw [egl_config_from_id_fst display _ s hs, egl_config_from_id_snd display _ s hs,
    hc]
  by_cases hres : s.createContextResult = egl.NO_CONTEXT
  · simp only [eglCreateContext, eglGetError, hres, ite_true, if_pos]
    exact ⟨_, rfl, by simp⟩
  · simp only [eglCreateContext, eglGetError]
    rw [if_neg hres, if_neg hres]
    exact ⟨_, rfl, by simp⟩

theorem create_context_behavior_witness :
    (∃ s2, create_context 1 ⟨3, ⟨2, 0⟩⟩
        { rgbaState with createContextResult := 42 } =
        some (Except.ok 42, s2) ∧
      EGLCall.createContext 1 cfgRGBA egl.NO_CONTEXT
        [egl.CONTEXT_CLIENT_VERSION, 2, egl.NONE, 0, 0, 0] ∈ s2.trace) ∧
    (∃ s2, create_context 1 ⟨3, ⟨2, 0⟩⟩
        { rgbaState with createContextResult := egl.NO_CONTEXT, lastError := 5 } =
        some (Except.error (Error.ContextCreationFailed ⟨5⟩), s2) ∧
      EGLCall.createContext 1 cfgRGBA egl.NO_CONTEXT
        [egl.CONTEXT_CLIENT_VERSION, 2, egl.NONE, 0, 0, 0] ∈ s2.trace) := by
  constructor
  · obtain ⟨s2, h1, h2⟩ := create_context_behavior 1 ⟨3, ⟨2, 0⟩⟩
      { rgbaState with createContextResult := 42 } rfl cfgRGBA rfl
    refine ⟨s2, ?_, h2⟩
    rw [if_neg (by norm_num [egl.NO_CONTEXT])] at h1
    exact h1
  · obtain ⟨s2, h1, h2⟩ := create_context_behavior 1 ⟨3, ⟨2, 0⟩⟩
      { rgbaState with createContextResult := egl.NO_CONTEXT, lastError := 5 } rfl
      cfgRGBA rfl
    refine ⟨s2, ?_, h2⟩
    rw [if_pos rfl] at h1
    exact h1

/-- C1: on a run where the native selection primitive does not fail, a
successful forward resolution selects exactly the first enumerated config
whose directly queried red/green/blue sizes all equal 8, and the descriptor
records that config's queried `CONFIG_ID` together with the GL version of
the request; when no enumerated config passes the exact-match check,
resolution fails with `NoPixelFormatFound`. -/
theorem forward_resolution_selects_first_sanitized (display : EGLint)
    (attributes : ContextAttributes) (extra : List EGLint) (s : EGLState)
    (hs : s.chooseScript = [])
    (hcp : attributes.flags.COMPATIBILITY_PROFILE = false)
    (hv : ¬(attributes.version.major > 3 ∨
      (attributes.version.major = 3 ∧ attributes.version.minor > 0))) :
    (∀ c, sanitizePass c = (decide (c.attr egl.RED_SIZE = 8) &&
      (decide (c.attr egl.GREEN_SIZE = 8) && decide (c.attr egl.BLUE_SIZE = 8)))) ∧
    (∀ d s2, ContextDescriptor.new display attributes extra s = (Except.ok d, s2) →
      ∃ c, (matchedConfigs (s.displays display)
          (requested_config_attributes attributes extra)).find? sanitizePass = some c ∧
        d.egl_config_id = c.attr egl.CONFIG_ID ∧
        d.gl_version = attributes.version) ∧
    ((matchedConfigs (s.displays display)
        (requested_config_attributes attributes extra)).find? sanitizePass = none →
      (ContextDescriptor.new display attributes extra s).1 =
        Except.error Error.NoPixelFormatFound) := by
  have hbridge := new_fst display attributes extra s hs
  refine ⟨sanitizePass_eq, ?_, ?_⟩
  · intro d s2 hok
    have h1 : resolveDescriptor (s.displays display) attributes extra = Except.ok d := by
      rw [← hbridge, hok]
    simp only [resolveDescriptor, hcp, hv, Bool.false_eq_true, if_false, ite_false] at h1
    by_cases hzero : (matchedConfigs (s.displays display)
        (requested_config_attributes attributes extra)).length = 0
    · rw [if_pos hzero] at h1
      cases h1
    · rw [if_neg hzero] at h1
      cases hfind : (matchedConfigs (s.displays display)
          (requested_config_attributes attributes extra)).find? sanitizePass with
      | none =>
          rw [hfind] at h1
          cases h1
      | some c =>
          rw [hfind] at h1
          simp only [Except.ok.injEq] at h1
          exact ⟨c, rfl, by rw [← h1], by rw [← h1]⟩
  · intro hnone
    rw [hbridge]
    simp only [resolveDescriptor, hcp, hv, Bool.false_eq_true, if_false, ite_false]
    by_cases hzero : (matchedConfigs (s.displays display)
        (requested_config_attributes attributes extra)).length = 0
    · rw [if_pos hzero]
    · rw [if_neg hzero, hnone]

theorem forward_resolution_selects_first_sanitized_witness :
    (∃ c, (matchedConfigs (twoConfigState.displays 1)
        (requested_config_attributes attrsPlain [])).find? sanitizePass = some c ∧
      (ContextDescriptor.new 1 attrsPlain [] twoConfigState).1 =
        Except.ok ⟨c.attr egl.CONFIG_ID, attrsPlain.version⟩) ∧
    ((ContextDescriptor.new 1 attrsPlain [] emptyState).1 =
      Except.error Error.NoPixelFormatFound) := by
  constructor
  · obtain ⟨c, hfind, hid, hver⟩ :=
      (forward_resolution_selects_first_sanitized 1 attrsPlain [] twoConfigState rfl
        rfl (by norm_num [attrsPlain])).2.1 ⟨3, ⟨2, 0⟩⟩
        (ContextDescriptor.new 1 attrsPlain [] twoConfigState).2 rfl
    refine ⟨c, hfind, ?_⟩
    rw [show (ContextDescriptor.new 1 attrsPlain [] twoConfigState).1 =
      Except.ok ⟨3, ⟨2, 0⟩⟩ from rfl]
    have hid2 : (3 : EGLint) = c.attr egl.CONFIG_ID := hid
    have hver2 : (⟨2, 0⟩ : GLVersion) = attrsPlain.version := hver
    rw [← hid2, ← hver2]
  · exact (forward_resolution_selects_first_sanitized 1 attrsPlain [] emptyState rfl
      rfl (by norm_num [attrsPlain])).2.2 rfl

/-! ### Round-trip analysis (C7) -/

theorem attribPairs_cons (a v : EGLint) (rest : List EGLint)
    (h : ¬a = egl.NONE) :
    attribPairs (a :: v :: rest) = (a, v) :: attribPairs rest := by
  rw [attribPairs, if_neg h]

theorem attribPairs_requested (attributes : ContextAttributes)
    (extra : List EGLint) :
    attribPairs (requested_config_attributes attributes extra) =
      [(egl.RED_SIZE, 8), (egl.GREEN_SIZE, 8), (egl.BLUE_SIZE, 8),
       (egl.ALPHA_SIZE, if attributes.flags.ALPHA then 8 else 0),
       (egl.DEPTH_SIZE, if attributes.flags.DEPTH then 24 else 0),
       (egl.STENCIL_SIZE, if attributes.flags.STENCIL then 8 else 0)] ++
      attribPairs (extra ++ [egl.NONE, 0, 0, 0]) := by
  simp only [requested_config_attributes, required_config_attributes,
    RGB_CHANNEL_BIT_DEPTH, List.cons_append, List.nil_append]
  rw [attribPairs_cons _ _ _ (by norm_num [egl.RED_SIZE, egl.NONE]),
    attribPairs_cons _ _ _ (by norm_num [egl.GREEN_SIZE, egl.NONE]),
    attribPairs_cons _ _ _ (by norm_num [egl.BLUE_SIZE, egl.NONE]),
    attribPairs_cons _ _ _ (by norm_num [egl.ALPHA_SIZE, egl.NONE]),
    attribPairs_cons _ _ _ (by norm_num [egl.DEPTH_SIZE, egl.NONE]),
    attribPairs_cons _ _ _ (by norm_num [egl.STENCIL_SIZE, egl.NONE])]

theorem matches_requested_iff (x : ConfigModel) (attributes : ContextAttributes)
    (extra : List EGLint) :
    ((attribPairs (requested_config_attributes attributes extra)).all
      (fun p => configMatchesPair x p) = true) ↔
    (8 ≤ x.attr egl.RED_SIZE ∧ 8 ≤ x.attr egl.GREEN_SIZE ∧
     8 ≤ x.attr egl.BLUE_SIZE ∧
     (if attributes.flags.ALPHA then (8 : EGLint) else 0) ≤ x.attr egl.ALPHA_SIZE ∧
     (if attributes.flags.DEPTH then (24 : EGLint) else 0) ≤ x.attr egl.DEPTH_SIZE ∧
     (if attributes.flags.STENCIL then (8 : EGLint) else 0) ≤ x.attr egl.STENCIL_SIZE ∧
     (attribPairs (extra ++ [egl.NONE, 0, 0, 0])).all
       (fun p => configMatchesPair x p) = true) := by
  rw [attribPairs_requested]
  have hred : isSizeAttr egl.RED_SIZE = true := by decide
  have hgreen : isSizeAttr egl.GREEN_SIZE = true := by decide
  have hblue : isSizeAttr egl.BLUE_SIZE = true := by decide
  have halpha : isSizeAttr egl.ALPHA_SIZE = true := by decide
  have hdepth : isSizeAttr egl.DEPTH_SIZE = true := by decide
  have hstencil : isSizeAttr egl.STENCIL_SIZE = true := by decide
  simp only [List.all_append, List.all_cons, List.all_nil, Bool.and_eq_true,
    configMatchesPair, hred, hgreen, hblue, halpha, hdepth, hstencil, if_true,
    ite_true, decide_eq_true_eq, Bool.and_true, and_true]
  tauto

theorem find?_filter_subpred {α : Type} (q p p2 : α → Bool) (c : α)
    (hmono : ∀ x, p2 x = true → p x = true) (hc2 : p2 c = true) :
    ∀ l : List α, (l.filter p).find? q = some c →
      (l.filter p2).find? q = some c := by
  intro l
  induction l with
  | nil => intro h; simp at h
  | cons x xs ih =>
      intro hfind
      by_cases hp2 : p2 x = true
      · have hp : p x = true := hmono x hp2
        rw [List.filter_cons_of_pos hp] at hfind
        rw [List.filter_cons_of_pos hp2]
        by_cases hq : q x = true
        · rw [List.find?_cons_of_pos _ hq] at hfind
          rw [List.find?_cons_of_pos _ hq]
          exact hfind
        · rw [List.find?_cons_of_neg _ hq] at hfind
          rw [List.find?_cons_of_neg _ hq]
          exact ih hfind
      · rw [List.filter_cons_of_neg hp2]
        by_cases hp : p x = true
        · rw [List.filter_cons_of_pos hp] at hfind
          by_cases hq : q x = true
          · rw [List.find?_cons_of_pos _ hq] at hfind
            injection hfind with h
            exact absurd (h ▸ hc2) hp2
          · rw [List.find?_cons_of_neg _ hq] at hfind
            exact ih hfind
        · rw [List.filter_cons_of_neg hp] at hfind
          exact ih hfind

theorem attributes_snd (descriptor : ContextDescriptor) (display : EGLint)
    (s : EGLState) (hs : s.chooseScript = []) :
    ∃ t, (descriptor.attributes display s).2 = { s with trace := t ++ s.trace } := by
  simp only [ContextDescriptor.attributes]
  rw [show egl_config_from_id display descriptor.egl_config_id s =
      ((egl_config_from_id display descriptor.egl_config_id s).1,
       (egl_config_from_id display descriptor.egl_config_id s).2) from rfl]
  rw [egl_config_from_id_fst display _ s hs, egl_config_from_id_snd display _ s hs]
  cases configFromId (s.displays display) descriptor.egl_config_id with
  | none =>
      exact ⟨[EGLCall.chooseConfig display
        [egl.CONFIG_ID, descriptor.egl_config_id, egl.NONE, 0, 0, 0]], rfl⟩
  | some c =>
      refine ⟨[EGLCall.getConfigAttrib display egl.STENCIL_SIZE,
        EGLCall.getConfigAttrib display egl.DEPTH_SIZE,
        EGLCall.getConfigAttrib display egl.ALPHA_SIZE,
        EGLCall.chooseConfig display
          [egl.CONFIG_ID, descriptor.egl_config_id, egl.NONE, 0, 0, 0]], ?_⟩
      simp [get_config_attr]

theorem if_req_le {v : EGLint} (req : EGLint) (hreq : 0 < req)
    (hv : v = 0 ∨ req ≤ v) :
    (if decide (v ≠ 0) = true then req else 0) ≤ v := by
  rcases hv with h | h
  · simp [h]
  · have hne : v ≠ 0 := by
      intro h0
      rw [h0] at h
      linarith
    simpa [hne] using h

theorem mono_component {flag : Bool} {req v x : EGLint} (hreq : 0 < req)
    (h1 : (if flag = true then req else 0) ≤ v)
    (hx : (if decide (v ≠ 0) = true then req else 0) ≤ x) :
    (if flag = true then req else 0) ≤ x := by
  cases flag with
  | false =>
      simp only [Bool.false_eq_true, ite_false] at h1 ⊢
      by_cases hv : v = 0
      · simpa [hv] using hx
      · have hx2 : req ≤ x := by simpa [hv] using hx
        linarith
  | true =>
      simp only [ite_true] at h1 ⊢
      have hne : v ≠ 0 := by
        intro h0
        rw [h0] at h1
        linarith
      simpa [hne] using hx

/-- The heart of the round-trip property: when the selected config's actual
alpha/depth/stencil sizes are each either 0 or at least the size that the
corresponding derived flag re-requests, the selection run from the derived
attributes still picks the same config. -/
theorem find?_roundtrip (configs : List ConfigModel)
    (attributes : ContextAttributes) (extra : List EGLint) (c : ConfigModel)
    (hsel : (matchedConfigs configs
      (requested_config_attributes attributes extra)).find? sanitizePass = some c)
    (ha : c.attr egl.ALPHA_SIZE = 0 ∨ 8 ≤ c.attr egl.ALPHA_SIZE)
    (hd : c.attr egl.DEPTH_SIZE = 0 ∨ 24 ≤ c.attr egl.DEPTH_SIZE)
    (hst : c.attr egl.STENCIL_SIZE = 0 ∨ 8 ≤ c.attr egl.STENCIL_SIZE)
    (attrs2 : ContextAttributes)
    (hflags : attrs2.flags =
      { ALPHA := c.attr egl.ALPHA_SIZE ≠ 0
        DEPTH := c.attr egl.DEPTH_SIZE ≠ 0
        STENCIL := c.attr egl.STENCIL_SIZE ≠ 0
        COMPATIBILITY_PROFILE := false }) :
    (matchedConfigs configs
      (requested_config_attributes attrs2 extra)).find? sanitizePass = some c := by
  have hcfull : sanitizePass c = true := List.find?_some hsel
  have hRGB : c.attr egl.RED_SIZE = 8 ∧ c.attr egl.GREEN_SIZE = 8 ∧
      c.attr egl.BLUE_SIZE = 8 := by
    rw [sanitizePass_eq] at hcfull
    simpa using hcfull
  obtain ⟨hR, hG, hB⟩ := hRGB
  have hcmem : c ∈ matchedConfigs configs
      (requested_config_attributes attributes extra) :=
    List.mem_of_find?_eq_some hsel
  simp only [matchedConfigs] at hcmem
  have hcmatch := (List.mem_filter.mp hcmem).2
  obtain ⟨-, -, -, ha1, hd1, hs1, hsuf⟩ :=
    (matches_requested_iff c attributes extra).mp hcmatch
  have hc2 : (attribPairs (requested_config_attributes attrs2 extra)).all
      (fun p => configMatchesPair c p) = true := by
    apply (matches_requested_iff c attrs2 extra).mpr
    refine ⟨le_of_eq hR.symm, le_of_eq hG.symm, le_of_eq hB.symm, ?_, ?_, ?_, hsuf⟩
    · rw [hflags]
      exact if_req_le 8 (by norm_num) ha
    · rw [hflags]
      exact if_req_le 24 (by norm_num) hd
    · rw [hflags]
      exact if_req_le 8 (by norm_num) hst
  have hmono : ∀ x, ((attribPairs (requested_config_attributes attrs2 extra)).all
        (fun p => configMatchesPair x p) = true) →
      ((attribPairs (requested_config_attributes attributes extra)).all
        (fun p => configMatchesPair x p) = true) := by
    intro x hx
    obtain ⟨xR, xG, xB, xa, xd, xs, xsuf⟩ :=
      (matches_requested_iff x attrs2 extra).mp hx
    rw [hflags] at xa xd xs
    apply (matches_requested_iff x attributes extra).mpr
    exact ⟨xR, xG, xB, mono_component (by norm_num) ha1 xa,
      mono_component (by norm_num) hd1 xd,
      mono_component (by norm_num) hs1 xs, xsuf⟩
  simp only [matchedConfigs] at hsel ⊢
  exact find?_filter_subpred sanitizePass _ _ c hmono hc2 configs hsel

/-- C7 (counterexample to the claim as stated): on a display whose only
config is 8/8/8 RGB with a 16-bit depth buffer, resolving the empty request
succeeds with config id 7; decoding attributes reports the DEPTH flag (the
depth size 16 is nonzero); but re-resolving from those attributes demands a
24-bit depth buffer, which the config lacks, so the round trip fails with
`NoPixelFormatFound` instead of returning the same config identifier. -/
theorem roundtrip_counterexample :
    ((ContextDescriptor.new 1 attrsPlain [] depth16State).1 =
      Except.ok ⟨7, ⟨2, 0⟩⟩) ∧
    ((ContextDescriptor.attributes ⟨7, ⟨2, 0⟩⟩ 1
        (ContextDescriptor.new 1 attrsPlain [] depth16State).2).1 =
      some ⟨⟨false, true, false, false⟩, ⟨2, 0⟩⟩) ∧
    ((ContextDescriptor.new 1 ⟨⟨false, true, false, false⟩, ⟨2, 0⟩⟩ []
        (ContextDescriptor.attributes ⟨7, ⟨2, 0⟩⟩ 1
          (ContextDescriptor.new 1 attrsPlain [] depth16State).2).2).1 =
      Except.error Error.NoPixelFormatFound) :=
  ⟨rfl, rfl, rfl⟩

/-- C7 (amended): on a run with no native selection failures, if forward
resolution succeeds, the descriptor's identifier resolves back to the
selected config itself, and that config's actual alpha/depth/stencil sizes
are each either 0 or at least the size the corresponding derived flag
re-requests (8/24/8), then decoding attributes and re-resolving against the
same display succeeds and yields a descriptor with the same config
identifier. -/
theorem roundtrip_same_config_id (display : EGLint)
    (attributes : ContextAttributes) (extra : List EGLint) (s : EGLState)
    (hs : s.chooseScript = [])
    (d : ContextDescriptor) (s1 : EGLState)
    (hok : ContextDescriptor.new display attributes extra s = (Except.ok d, s1))
    (c : ConfigModel)
    (hsel : (matchedConfigs (s.displays display)
      (requested_config_attributes attributes extra)).find? sanitizePass = some c)
    (hid : configFromId (s.displays display) d.egl_config_id = some c)
    (ha : c.attr egl.ALPHA_SIZE = 0 ∨ 8 ≤ c.attr egl.ALPHA_SIZE)
    (hd : c.attr egl.DEPTH_SIZE = 0 ∨ 24 ≤ c.attr egl.DEPTH_SIZE)
    (hst : c.attr egl.STENCIL_SIZE = 0 ∨ 8 ≤ c.attr egl.STENCIL_SIZE)
    (attrs2 : ContextAttributes) (s2 : EGLState)
    (hattrs : ContextDescriptor.attributes d display s1 = (some attrs2, s2)) :
    ∃ d2 s3, ContextDescriptor.new display attrs2 extra s2 = (Except.ok d2, s3) ∧
      d2.egl_config_id = d.egl_config_id := by
  -- unpack the forward resolution
  have hfst0 : resolveDescriptor (s.displays display) attributes extra =
      Except.ok d := by
    rw [← new_fst display attributes extra s hs, hok]
  have hcp : attributes.flags.COMPATIBILITY_PROFILE = false := by
    by_contra hcp
    rw [Bool.not_eq_false] at hcp
    simp [resolveDescriptor, hcp] at hfst0
  have hv : ¬(attributes.version.major > 3 ∨
      (attributes.version.major = 3 ∧ attributes.version.minor > 0)) := by
    intro hv
    simp [resolveDescriptor, hcp, hv] at hfst0
  have hnempty : ¬(matchedConfigs (s.displays display)
      (requested_config_attributes attributes extra)).length = 0 := by
    intro h0
    rw [List.length_eq_zero] at h0
    rw [h0] at hsel
    simp at hsel
  rw [resolveDescriptor] at hfst0
  rw [if_neg (by simp [hcp]), if_neg hv, if_neg hnempty, hsel] at hfst0
  simp only [Except.ok.injEq] at hfst0
  -- fields of the intermediate states
  obtain ⟨t1, ht1⟩ := new_snd display attributes extra s hs
  have hs1eq : s1 = { s with trace := t1 ++ s.trace } := by
    rw [show s1 = (ContextDescriptor.new display attributes extra s).2 from by
      rw [hok], ht1]
  have hs1script : s1.chooseScript = [] := by rw [hs1eq, hs]
  have hs1disp : s1.displays = s.displays := by rw [hs1eq]
  -- the decoded attributes
  have hattrs1 : attributesPure (s.displays display) d = some attrs2 := by
    rw [← hs1disp, ← attributes_fst d display s1 hs1script, hattrs]
  rw [attributesPure, hid] at hattrs1
  simp only [Option.some.injEq] at hattrs1
  have hflags : attrs2.flags =
      { ALPHA := c.attr egl.ALPHA_SIZE ≠ 0
        DEPTH := c.attr egl.DEPTH_SIZE ≠ 0
        STENCIL := c.attr egl.STENCIL_SIZE ≠ 0
        COMPATIBILITY_PROFILE := false } := by rw [← hattrs1]
  have hver2 : attrs2.version = attributes.version := by
    rw [← hattrs1, ← hfst0]
  -- fields of the state after decoding
  obtain ⟨t2, ht2⟩ := attributes_snd d display s1 hs1script
  have hs2eq : s2 = { s1 with trace := t2 ++ s1.trace } := by
    rw [show s2 = (ContextDescriptor.attributes d display s1).2 from by
      rw [hattrs], ht2]
  have hs2script : s2.chooseScript = [] := by rw [hs2eq, hs1script]
  have hs2disp : s2.displays = s.displays := by rw [hs2eq, hs1eq]
  -- the re-run selection picks the same config
  have hsel2 := find?_roundtrip (s.displays display) attributes extra c hsel
    ha hd hst attrs2 hflags
  have hnempty2 : ¬(matchedConfigs (s.displays display)
      (requested_config_attributes attrs2 extra)).length = 0 := by
    intro h0
    rw [List.length_eq_zero] at h0
    rw [h0] at hsel2
    simp at hsel2
  have hfst2 : resolveDescriptor (s.displays display) attrs2 extra =
      Except.ok ⟨c.attr egl.CONFIG_ID, attrs2.version⟩ := by
    rw [resolveDescriptor]
    rw [if_neg (by simp [hflags]), if_neg (by rw [hver2]; exact hv),
      if_neg hnempty2, hsel2]
  refine ⟨⟨c.attr egl.CONFIG_ID, attrs2.version⟩,
    (ContextDescriptor.new display attrs2 extra s2).2, ?_, ?_⟩
  · refine Prod.ext_iff.mpr ⟨?_, rfl⟩
    rw [new_fst display attrs2 extra s2 hs2script, hs2disp, hfst2]
  · rw [← hfst0]

theorem roundtrip_same_config_id_witness :
    ∃ d2 s3, ContextDescriptor.new 1 ⟨⟨true, true, true, false⟩, ⟨2, 0⟩⟩ []
        (ContextDescriptor.attributes ⟨3, ⟨2, 0⟩⟩ 1
          (ContextDescriptor.new 1 attrsPlain [] rgbaState).2).2 =
        (Except.ok d2, s3) ∧
      d2.egl_config_id = 3 := by
  have h := roundtrip_same_config_id 1 attrsPlain [] rgbaState rfl
    ⟨3, ⟨2, 0⟩⟩ (ContextDescriptor.new 1 attrsPlain [] rgbaState).2 rfl
    cfgRGBA rfl rfl
    (Or.inr (by decide)) (Or.inr (by decide)) (Or.inr (by decide))
    ⟨⟨true, true, true, false⟩, ⟨2, 0⟩⟩
    (ContextDescriptor.attributes ⟨3, ⟨2, 0⟩⟩ 1
      (ContextDescriptor.new 1 attrsPlain [] rgbaState).2).2 rfl
  exact h

end Surfman
